import Mathlib

/-!
Shallow embedding of three UI-layer modules of a Matrix web chat client:

* `src/utils/oidc/authorize.ts` — OIDC authorization-code login helpers;
* `src/async-components/views/dialogs/security/ExportE2eKeysDialog.tsx` —
  the end-to-end key export dialog;
* `src/components/views/settings/SecureBackupPanel.tsx` — the secure key
  backup settings panel.

External SDK calls (`matrix-js-sdk`, `FileSaver`) are modelled as oracle
parameters; each embedded function additionally returns the list of
observable effects (SDK calls, `setState`, `onFinished`, file saves) it
performs, so claims about call order and frame conditions are statable.
JavaScript truthiness and `typeof` checks are embedded explicitly.
-/

namespace MatrixReactSdk

/-! ## OIDC: `src/utils/oidc/authorize.ts` -/

/-- A value of the SDK's `QueryDict`: `string[] | string | number | boolean`
(an absent key is `Option.none` at the dictionary level). -/
inductive QueryValue where
  | str (s : String)
  | strs (l : List String)
  | num (n : Int)
  | bool (b : Bool)
deriving DecidableEq, Repr

/-- `QueryDict` from `matrix-js-sdk/src/utils`, as an association list. -/
def QueryDict := List (String × QueryValue)

/-- JavaScript lookup `queryParams["key"]`: first binding, else `undefined`. -/
def lookupQ (qp : QueryDict) (k : String) : Option QueryValue :=
  match qp with
  | [] => none
  | (k', v) :: rest => if k' = k then some v else lookupQ rest k

/-- JavaScript truthiness of a possibly-undefined `QueryDict` value:
`undefined`, `""`, `0` and `false` are falsy; arrays are always truthy. -/
def jsTruthy : Option QueryValue → Bool
  | none => false
  | some (.str s) => !s.isEmpty
  | some (.strs _) => true
  | some (.num n) => n != 0
  | some (.bool b) => b

/-- `typeof v === "string"` for a possibly-undefined `QueryDict` value. -/
def isStringQ : Option QueryValue → Bool
  | some (.str _) => true
  | _ => false

/-- The underlying string of a `QueryValue` known to be a string. -/
def strOfQ : Option QueryValue → String
  | some (.str s) => s
  | _ => ""

/-- The error message thrown by `getCodeAndStateFromQueryParams`. -/
def invalidQueryParamsMsg : String :=
  "Invalid query parameters for OIDC native login. `code` and `state` are required."

/-- `getCodeAndStateFromQueryParams` (authorize.ts lines 62-70): reads
`code` and `state`, throws unless both are truthy strings. -/
def getCodeAndStateFromQueryParams (queryParams : QueryDict) :
    Except String (String × String) :=
  let code := lookupQ queryParams "code"
  let state := lookupQ queryParams "state"
  if !jsTruthy code || !isStringQ code || !jsTruthy state || !isStringQ state then
    Except.error invalidQueryParamsMsg
  else
    Except.ok (strOfQ code, strOfQ state)

/-- `oidcClientSettings` as returned by the SDK's
`completeAuthorizationCodeGrant`. -/
structure OidcClientSettings where
  clientId : String
  issuer : String
deriving DecidableEq, Repr

/-- The token response inside the SDK grant result. -/
structure TokenResponse where
  access_token : String
deriving DecidableEq, Repr

/-- The result of the SDK's `completeAuthorizationCodeGrant`. -/
structure GrantResult where
  homeserverUrl : String
  identityServerUrl : Option String
  tokenResponse : TokenResponse
  oidcClientSettings : OidcClientSettings
deriving DecidableEq, Repr

/-- What `completeOidcLogin` resolves with. -/
structure CompleteLoginResult where
  homeserverUrl : String
  identityServerUrl : Option String
  accessToken : String
  clientId : String
  issuer : String
deriving DecidableEq, Repr

/-- An observable SDK call made by `completeOidcLogin`. -/
inductive OidcCall where
  | grant (code : String) (state : String)
deriving DecidableEq, Repr

/-- `completeOidcLogin` (authorize.ts lines 78-100), parameterised by an
oracle `sdk` for the SDK's `completeAuthorizationCodeGrant`.  Returns the
list of SDK calls made together with the resolved value or thrown error. -/
def completeOidcLogin (sdk : String → String → Except String GrantResult)
    (queryParams : QueryDict) :
    List OidcCall × Except String CompleteLoginResult :=
  match getCodeAndStateFromQueryParams queryParams with
  | .error e => ([], .error e)
  | .ok (code, state) =>
    ([OidcCall.grant code state],
      match sdk code state with
      | .error e => .error e
      | .ok r =>
        .ok { homeserverUrl := r.homeserverUrl
              identityServerUrl := r.identityServerUrl
              accessToken := r.tokenResponse.access_token
              clientId := r.oidcClientSettings.clientId
              issuer := r.oidcClientSettings.issuer })

/-- The argument record of the SDK's `generateOidcAuthorizationUrl`. -/
structure OidcAuthParams where
  metadata : String
  redirectUri : String
  clientId : String
  homeserverUrl : String
  identityServerUrl : Option String
  nonce : String
deriving DecidableEq, Repr

/-- The pieces of browser state `startOidcLogin` touches:
`window.location.origin` (read) and `window.location.href` (written). -/
structure BrowserLocation where
  origin : String
  href : String
deriving DecidableEq, Repr

/-- `delegatedAuthConfig` from discovery: only its `metadata` is used. -/
structure OidcClientConfig where
  metadata : String
deriving DecidableEq, Repr

/-- `startOidcLogin` (authorize.ts lines 33-53), parameterised by oracles
for the SDK's `generateOidcAuthorizationUrl` and `randomString`.  Returns
the updated browser location and the parameter record it passed to the
URL generator. -/
def startOidcLogin (gen : OidcAuthParams → String) (rand : Nat → String)
    (delegatedAuthConfig : OidcClientConfig) (clientId : String)
    (homeserverUrl : String) (identityServerUrl : Option String)
    (loc : BrowserLocation) : BrowserLocation × OidcAuthParams :=
  let redirectUri := loc.origin
  let nonce := rand 10
  let params : OidcAuthParams :=
    { metadata := delegatedAuthConfig.metadata
      redirectUri := redirectUri
      clientId := clientId
      homeserverUrl := homeserverUrl
      identityServerUrl := identityServerUrl
      nonce := nonce }
  let authorizationUrl := gen params
  ({ loc with href := authorizationUrl }, params)

/-! ## ExportE2eKeysDialog:
`src/async-components/views/dialogs/security/ExportE2eKeysDialog.tsx` -/

/-- The dialog's `Phase` enum. -/
inductive Phase where
  | edit
  | exporting
deriving DecidableEq, Repr

/-- The dialog's React state (`IState`). -/
structure DialogState where
  phase : Phase
  errStr : Option String
  passphrase1 : String
  passphrase2 : String
deriving DecidableEq, Repr

/-- A JavaScript error value as the dialog sees it: only the optional
`friendlyText` property is inspected. -/
structure JsError where
  friendlyText : Option String
deriving DecidableEq, Repr

/-- The localised "Unknown error" message. -/
def unknownErrorMsg : String := "Unknown error"

/-- `e.friendlyText || _t("Unknown error")`: an absent or empty (falsy)
`friendlyText` falls back to the unknown-error message. -/
def friendlyTextOr (e : JsError) : String :=
  match e.friendlyText with
  | some s => if s.isEmpty then unknownErrorMsg else s
  | none => unknownErrorMsg

/-- The room keys returned by the SDK's `exportRoomKeys`, kept abstract:
the dialog only ever passes them to `JSON.stringify`. -/
structure RoomKeys where
  sessions : List String
deriving DecidableEq, Repr

/-- Oracles for the external calls `startExport` makes:
`matrixClient.exportRoomKeys`, `JSON.stringify`,
`MegolmExportEncryption.encryptMegolmKeyFile` and `FileSaver.saveAs`
(the last one covering the `Blob` construction and save). -/
structure ExportOracles where
  exportRoomKeys : Except JsError RoomKeys
  jsonStringify : RoomKeys → String
  encryptMegolmKeyFile : String → String → Except JsError String
  saveAs : String → String → Except JsError Unit

/-- An observable effect of the export dialog's handlers. -/
inductive DialogEffect where
  | callExportRoomKeys
  | callEncrypt (data : String) (passphrase : String)
  | saveFile (name : String) (contents : String)
  | onFinished (doExport : Bool)
  | logError
deriving DecidableEq, Repr

/-- The `.catch` handler of `startExport` (lines 124-134): logs, and when
the component is still mounted resets the phase to `Edit` with the
friendly error message; when unmounted it returns without touching state. -/
def catchExport (e : JsError) (unmounted : Bool) (s : DialogState) : DialogState :=
  if unmounted then s
  else { s with errStr := some (friendlyTextOr e), phase := Phase.edit }

/-- The promise chain of `startExport` (lines 110-134), resolved against
the oracles; `unmounted` is the component's flag at the time the `.catch`
handler would run.  Returns the state after resolution (starting from `s`,
the state after the synchronous `setState`) and the effects performed. -/
def exportChain (o : ExportOracles) (passphrase : String) (unmounted : Bool)
    (s : DialogState) : DialogState × List DialogEffect :=
  match o.exportRoomKeys with
  | .error e =>
    (catchExport e unmounted s, [DialogEffect.callExportRoomKeys, DialogEffect.logError])
  | .ok k =>
    let data := o.jsonStringify k
    match o.encryptMegolmKeyFile data passphrase with
    | .error e =>
      (catchExport e unmounted s,
        [DialogEffect.callExportRoomKeys, DialogEffect.callEncrypt data passphrase,
         DialogEffect.logError])
    | .ok f =>
      match o.saveAs f "element-keys.txt" with
      | .error e =>
        (catchExport e unmounted s,
          [DialogEffect.callExportRoomKeys, DialogEffect.callEncrypt data passphrase,
           DialogEffect.logError])
      | .ok _ =>
        (s, [DialogEffect.callExportRoomKeys, DialogEffect.callEncrypt data passphrase,
             DialogEffect.saveFile "element-keys.txt" f, DialogEffect.onFinished true])

/-- The synchronous tail of `startExport` (lines 136-139): clear the error
and enter the `Exporting` phase. -/
def startExportSync (s : DialogState) : DialogState :=
  { s with errStr := none, phase := Phase.exporting }

/-- `startExport` end to end: the synchronous `setState` to `Exporting`
followed by the resolution of the promise chain. -/
def startExport (o : ExportOracles) (passphrase : String) (unmounted : Bool)
    (s : DialogState) : DialogState × List DialogEffect :=
  exportChain o passphrase unmounted (startExportSync s)

/-- `onCancelClick` (lines 142-146): calls `onFinished(false)`. -/
def onCancelClick : List DialogEffect := [DialogEffect.onFinished false]

/-- A field ref as `verifyFieldsBeforeSubmit` uses it: `valid` is the
outcome of `field.validate({ allowEmpty: false })`. -/
structure FieldModel where
  valid : Bool
deriving DecidableEq, Repr

/-- The dialog's field refs (`fieldPassword`, `fieldPasswordConfirm`);
a `none` models a ref that was never attached. -/
structure DialogRefs where
  fieldPassword : Option FieldModel
  fieldPasswordConfirm : Option FieldModel
deriving DecidableEq, Repr

/-- An observable effect of the submit path.  Field index 0 is the
passphrase field, 1 the confirmation field (display order). -/
inductive SubmitEffect where
  | validate (field : Nat) (allowEmpty : Bool) (focused : Bool)
  | focus (field : Nat)
  | startExport (passphrase : String)
deriving DecidableEq, Repr

/-- One iteration of the loop in `verifyFieldsBeforeSubmit` (lines 76-83):
a null ref is skipped, otherwise the field is validated with
`allowEmpty: false` and collected when invalid. -/
def verifyStep (acc : List SubmitEffect × List Nat) (p : Nat × Option FieldModel) :
    List SubmitEffect × List Nat :=
  match p.2 with
  | none => acc
  | some f =>
    (acc.1 ++ [SubmitEffect.validate p.1 false false],
     if f.valid then acc.2 else acc.2 ++ [p.1])

/-- `verifyFieldsBeforeSubmit` (lines 71-95): validates the fields in
display order; when all present fields are valid it returns `true`,
otherwise it focuses and re-validates the first invalid field and returns
`false`. -/
def verifyFieldsBeforeSubmit (r : DialogRefs) : Bool × List SubmitEffect :=
  let fieldsInDisplayOrder := [(0, r.fieldPassword), (1, r.fieldPasswordConfirm)]
  let acc := fieldsInDisplayOrder.foldl verifyStep ([], [])
  match acc.2 with
  | [] => (true, acc.1)
  | i :: _ =>
    (false, acc.1 ++ [SubmitEffect.focus i, SubmitEffect.validate i false true])

/-- `onPassphraseFormSubmit` (lines 97-105): verify the fields; bail out
when invalid or when the component has been unmounted, otherwise start the
export with `state.passphrase1`. -/
def onPassphraseFormSubmit (r : DialogRefs) (unmounted : Bool)
    (s : DialogState) : List SubmitEffect :=
  let verified := verifyFieldsBeforeSubmit r
  if !verified.1 then verified.2
  else if unmounted then verified.2
  else verified.2 ++ [SubmitEffect.startExport s.passphrase1]

/-- The form-relevant outputs of `render` (lines 154-238): the `disabled`
props of the two passphrase fields, the submit input and the cancel
button, and the displayed error text. -/
structure RenderProps where
  passphrase1Disabled : Bool
  passphrase2Disabled : Bool
  submitDisabled : Bool
  cancelDisabled : Bool
  errorText : Option String
deriving DecidableEq, Repr

/-- `render`: `disableForm` is `phase === Phase.Exporting` and drives all
four `disabled` props. -/
def render (s : DialogState) : RenderProps :=
  let disableForm := s.phase = Phase.exporting
  { passphrase1Disabled := disableForm
    passphrase2Disabled := disableForm
    submitDisabled := disableForm
    cancelDisabled := disableForm
    errorText := s.errStr }

/-! ## SecureBackupPanel:
`src/components/views/settings/SecureBackupPanel.tsx` -/

/-- `IKeyBackupInfo` as the panel uses it: `version` is optional in the
SDK type, `algorithm` is shown in the details table. -/
structure BackupInfo where
  version : Option String
  algorithm : String
deriving DecidableEq, Repr

/-- `TrustInfo` from the SDK's backup module, as the panel reads it. -/
structure TrustInfo where
  usable : Bool
  trusted_locally : Bool
deriving DecidableEq, Repr

/-- The value cached as the session backup private key: a `Uint8Array`,
or some other value (the code checks `instanceof Uint8Array`), or null. -/
inductive CachedKey where
  | bytes (data : List Nat)
  | other
deriving DecidableEq, Repr

/-- The result of the SDK's `checkKeyBackup` (possibly `undefined`, and
its fields read through `?.` and `?? null`). -/
structure CheckResult where
  backupInfo : Option BackupInfo
  trustInfo : Option TrustInfo
deriving DecidableEq, Repr

/-- The panel's React state (`IState`). -/
structure PanelState where
  loading : Bool
  error : Bool
  backupKeyStored : Option Bool
  backupKeyCached : Option Bool
  backupKeyWellFormed : Option Bool
  secretStorageKeyInAccount : Option Bool
  secretStorageReady : Option Bool
  backupInfo : Option BackupInfo
  backupSigStatus : Option TrustInfo
  sessionsRemaining : Nat
deriving DecidableEq, Repr

/-- Oracles for the SDK calls the panel's status loaders make. -/
structure PanelOracles where
  getKeyBackupVersion : Except JsError (Option BackupInfo)
  isKeyBackupTrusted : BackupInfo → TrustInfo
  checkKeyBackup : Except JsError (Option CheckResult)
  hasCrypto : Bool
  isKeyBackupKeyStored : Option Bool
  getSessionBackupPrivateKey : Option CachedKey
  hasKey : Bool
  isSecretStorageReady : Bool

/-- An observable effect of the panel's handlers. -/
inductive PanelEffect where
  | setState
  | logError
deriving DecidableEq, Repr

/-- `getUpdatedDiagnostics` (lines 147-169): bails out when there is no
crypto object; otherwise gathers the diagnostics and, unless the component
has been unmounted by the time the awaits resolve, stores them. -/
def getUpdatedDiagnostics (o : PanelOracles) (unmounted : Bool)
    (s : PanelState) : PanelState × List PanelEffect :=
  if !o.hasCrypto then (s, [])
  else
    let backupKeyStored := o.isKeyBackupKeyStored = some true
    let backupKeyFromCache := o.getSessionBackupPrivateKey
    let backupKeyCached := backupKeyFromCache.isSome
    let backupKeyWellFormed :=
      match backupKeyFromCache with
      | some (.bytes _) => true
      | _ => false
    let secretStorageKeyInAccount := o.hasKey
    let secretStorageReady := o.isSecretStorageReady
    if unmounted then (s, [])
    else
      ({ s with backupKeyStored := some backupKeyStored
                backupKeyCached := some backupKeyCached
                backupKeyWellFormed := some backupKeyWellFormed
                secretStorageKeyInAccount := some secretStorageKeyInAccount
                secretStorageReady := some secretStorageReady },
       [PanelEffect.setState])

/-- The awaited part of `loadBackupStatus` (lines 125-144): fetch the
backup version, derive `backupSigStatus` from `isKeyBackupTrusted` when a
backup exists, and store the result unless unmounted; on a rejection log
and, unless unmounted, record the error state. -/
def loadBackupStatusCont (o : PanelOracles) (unmounted : Bool)
    (s : PanelState) : PanelState × List PanelEffect :=
  match o.getKeyBackupVersion with
  | .ok backupInfo =>
    let backupSigStatus := backupInfo.map o.isKeyBackupTrusted
    if unmounted then (s, [])
    else
      ({ s with loading := false, error := false
                backupInfo := backupInfo, backupSigStatus := backupSigStatus },
       [PanelEffect.setState])
  | .error _ =>
    if unmounted then (s, [PanelEffect.logError])
    else
      ({ s with loading := false, error := true
                backupInfo := none, backupSigStatus := none },
       [PanelEffect.logError, PanelEffect.setState])

/-- `loadBackupStatus` (lines 122-145): the unconditional synchronous
`setState({ loading: true })`, the (un-awaited) diagnostics refresh, then
the fetch continuation. -/
def loadBackupStatus (o : PanelOracles) (unmounted : Bool)
    (s : PanelState) : PanelState × List PanelEffect :=
  let s0 := { s with loading := true }
  let diag := getUpdatedDiagnostics o unmounted s0
  let cont := loadBackupStatusCont o unmounted diag.1
  (cont.1, PanelEffect.setState :: (diag.2 ++ cont.2))

/-- The awaited part of `checkKeyBackupStatus` (lines 102-119): on success
stores the check result unconditionally; on a rejection logs and, unless
unmounted, records the error state. -/
def checkKeyBackupStatusCont (o : PanelOracles) (unmounted : Bool)
    (s : PanelState) : PanelState × List PanelEffect :=
  match o.checkKeyBackup with
  | .ok keyBackupResult =>
    ({ s with loading := false, error := false
              backupInfo := keyBackupResult.bind (·.backupInfo)
              backupSigStatus := keyBackupResult.bind (·.trustInfo) },
     [PanelEffect.setState])
  | .error _ =>
    if unmounted then (s, [PanelEffect.logError])
    else
      ({ s with loading := false, error := true
                backupInfo := none, backupSigStatus := none },
       [PanelEffect.logError, PanelEffect.setState])

/-- `checkKeyBackupStatus` (lines 100-120): the diagnostics refresh, then
the check continuation. -/
def checkKeyBackupStatus (o : PanelOracles) (unmounted : Bool)
    (s : PanelState) : PanelState × List PanelEffect :=
  let diag := getUpdatedDiagnostics o unmounted s
  let cont := checkKeyBackupStatusCont o unmounted diag.1
  (cont.1, diag.2 ++ cont.2)

/-- An observable effect of `deleteBackup` and its dialog callback. -/
inductive DeleteEffect where
  | openQuestionDialog
  | setLoading
  | deleteKeyBackupVersion (version : Option String)
  | reloadStatus
deriving DecidableEq, Repr

/-- JavaScript truthiness of the optional boolean `proceed` the question
dialog finishes with. -/
def proceedTruthy : Option Bool → Bool
  | some b => b
  | none => false

/-- `deleteBackup` (lines 187-205): synchronously it only opens the
confirmation `QuestionDialog`. -/
def deleteBackup : List DeleteEffect := [DeleteEffect.openQuestionDialog]

/-- The `onFinished` callback of the deletion dialog (lines 195-203):
a falsy `proceed` returns immediately; otherwise the panel enters loading,
calls `deleteKeyBackupVersion` with `backupInfo!.version!`, and reloads
the status when that call fulfils.  `none` models the `TypeError` raised
by `this.state.backupInfo!` when there is no backup. -/
def deleteBackupOnFinished (deleteResult : Except JsError Unit)
    (proceed : Option Bool) (s : PanelState) :
    Option (PanelState × List DeleteEffect) :=
  if !proceedTruthy proceed then some (s, [])
  else
    match s.backupInfo with
    | none => none
    | some info =>
      some ({ s with loading := true },
        [DeleteEffect.setLoading, DeleteEffect.deleteKeyBackupVersion info.version] ++
          (match deleteResult with
           | .ok _ => [DeleteEffect.reloadStatus]
           | .error _ => []))

/-! ## Concrete fixtures used by witnesses and counterexamples -/

/-- A query dictionary with valid `code` and `state` entries. -/
def qpGood : QueryDict :=
  [("code", QueryValue.str "abc"), ("state", QueryValue.str "xyz")]

/-- A grant result fixture. -/
def grantR : GrantResult :=
  { homeserverUrl := "https://hs.example"
    identityServerUrl := some "https://is.example"
    tokenResponse := { access_token := "tok" }
    oidcClientSettings := { clientId := "cid", issuer := "https://issuer.example" } }

/-- An SDK oracle whose grant call always succeeds with `grantR`. -/
def sdkOK : String → String → Except String GrantResult :=
  fun _ _ => Except.ok grantR

/-- An SDK oracle whose grant call always rejects. -/
def sdkFail : String → String → Except String GrantResult :=
  fun _ _ => Except.error "sdk failed"

/-- Export oracles on which every step of the export pipeline succeeds. -/
def expOraclesOK : ExportOracles :=
  { exportRoomKeys := Except.ok { sessions := ["k1", "k2"] }
    jsonStringify := fun k => String.intercalate "," k.sessions
    encryptMegolmKeyFile := fun data pw => Except.ok (data ++ "|" ++ pw)
    saveAs := fun _ _ => Except.ok () }

/-- Export oracles on which `exportRoomKeys` rejects. -/
def expOraclesFail : ExportOracles :=
  { expOraclesOK with exportRoomKeys := Except.error { friendlyText := some "Boom" } }

/-- The dialog's initial state. -/
def dlg0 : DialogState :=
  { phase := Phase.edit, errStr := none, passphrase1 := "hunter2", passphrase2 := "hunter2" }

/-- Field refs on which both fields validate. -/
def refsOK : DialogRefs :=
  { fieldPassword := some { valid := true }, fieldPasswordConfirm := some { valid := true } }

/-- A backup info fixture. -/
def backupInfo1 : BackupInfo := { version := some "7", algorithm := "m.megolm_backup.v1" }

/-- Panel oracles on which a trusted backup exists. -/
def panelOraclesOK : PanelOracles :=
  { getKeyBackupVersion := Except.ok (some backupInfo1)
    isKeyBackupTrusted := fun _ => { usable := true, trusted_locally := true }
    checkKeyBackup := Except.error { friendlyText := none }
    hasCrypto := true
    isKeyBackupKeyStored := some true
    getSessionBackupPrivateKey := some (CachedKey.bytes [1, 2])
    hasKey := true
    isSecretStorageReady := true }

/-- The panel's initial state. -/
def panel0 : PanelState :=
  { loading := true, error := false
    backupKeyStored := none, backupKeyCached := none, backupKeyWellFormed := none
    secretStorageKeyInAccount := none, secretStorageReady := none
    backupInfo := some backupInfo1, backupSigStatus := none, sessionsRemaining := 0 }

/-! ## Claims -/

/-- C1: with a passphrase on which the form was successfully submitted,
`startExport` passes `JSON.stringify` of `matrixClient.exportRoomKeys()`
together with that passphrase to
`MegolmExportEncryption.encryptMegolmKeyFile`, and saves the returned
bytes unchanged under the name `element-keys.txt`; the dialog applies no
transformation of its own to the encrypted bytes, for any encryption
oracle. -/
theorem export_saves_encrypted_file (o : ExportOracles) (pw : String)
    (u : Bool) (s : DialogState) (k : RoomKeys) (f : String)
    (hk : o.exportRoomKeys = Except.ok k)
    (he : o.encryptMegolmKeyFile (o.jsonStringify k) pw = Except.ok f)
    (hs : o.saveAs f "element-keys.txt" = Except.ok ()) :
    (startExport o pw u s).2 =
      [DialogEffect.callExportRoomKeys,
       DialogEffect.callEncrypt (o.jsonStringify k) pw,
       DialogEffect.saveFile "element-keys.txt" f,
       DialogEffect.onFinished true] := by
  simp [startExport, exportChain, hk, he, hs]

/-- C1 witness: the theorem applied to concrete oracles. -/
theorem export_saves_encrypted_file_witness :
    (startExport expOraclesOK "hunter2" false dlg0).2 =
      [DialogEffect.callExportRoomKeys,
       DialogEffect.callEncrypt "k1,k2" "hunter2",
       DialogEffect.saveFile "element-keys.txt" "k1,k2|hunter2",
       DialogEffect.onFinished true] :=
  export_saves_encrypted_file expOraclesOK "hunter2" false dlg0
    { sessions := ["k1", "k2"] } "k1,k2|hunter2" rfl rfl rfl

/-- C2: when `code` and `state` are non-empty strings and the SDK grant
call succeeds, `completeOidcLogin` makes exactly that grant call and
resolves with exactly the fields of the SDK result: `homeserverUrl` and
`identityServerUrl` unchanged, `accessToken` from
`tokenResponse.access_token`, `clientId` and `issuer` from
`oidcClientSettings`. -/
theorem completeOidcLogin_passes_through_sdk_result
    (sdk : String → String → Except String GrantResult) (qp : QueryDict)
    (c st : String) (r : GrantResult)
    (hc : lookupQ qp "code" = some (QueryValue.str c)) (hc0 : c ≠ "")
    (hs : lookupQ qp "state" = some (QueryValue.str st)) (hs0 : st ≠ "")
    (hr : sdk c st = Except.ok r) :
    completeOidcLogin sdk qp =
      ([OidcCall.grant c st],
       Except.ok
         { homeserverUrl := r.homeserverUrl
           identityServerUrl := r.identityServerUrl
           accessToken := r.tokenResponse.access_token
           clientId := r.oidcClientSettings.clientId
           issuer := r.oidcClientSettings.issuer }) := by
  simp [completeOidcLogin, getCodeAndStateFromQueryParams, hc, hs,
    jsTruthy, isStringQ, strOfQ, String.isEmpty_iff, hc0, hs0, hr]

/-- C2 witness: the theorem applied to concrete query parameters and a
concrete SDK oracle. -/
theorem completeOidcLogin_passes_through_sdk_result_witness :
    completeOidcLogin sdkOK qpGood =
      ([OidcCall.grant "abc" "xyz"],
       Except.ok
         { homeserverUrl := "https://hs.example"
           identityServerUrl := some "https://is.example"
           accessToken := "tok"
           clientId := "cid"
           issuer := "https://issuer.example" }) :=
  completeOidcLogin_passes_through_sdk_result sdkOK qpGood "abc" "xyz" grantR
    rfl (by decide) rfl (by decide) rfl

/-- Whether both `code` and `state` are truthy strings, i.e. exactly the
inputs on which `getCodeAndStateFromQueryParams` does not throw. -/
def validCodeState (qp : QueryDict) : Bool :=
  jsTruthy (lookupQ qp "code") && isStringQ (lookupQ qp "code") &&
  jsTruthy (lookupQ qp "state") && isStringQ (lookupQ qp "state")

/-- C3 counterexample: with valid `code` and `state` but an SDK grant call
that rejects, `completeOidcLogin` still throws, so it throws on an input
on which `code` and `state` are present non-empty single strings. -/
theorem completeOidcLogin_throws_on_sdk_rejection :
    getCodeAndStateFromQueryParams qpGood = Except.ok ("abc", "xyz") ∧
    (completeOidcLogin sdkFail qpGood).2 = Except.error "sdk failed" := by
  constructor <;> rfl

/-- C3 amended: `completeOidcLogin` throws the invalid-query-parameters
error with no SDK call made if and only if `code` or `state` is absent,
empty, or not a single string; on every other input the extracted strings
are passed to the SDK unchanged (any remaining error is the propagated
rejection of the SDK call itself). -/
theorem completeOidcLogin_param_error_iff
    (sdk : String → String → Except String GrantResult) (qp : QueryDict) :
    (completeOidcLogin sdk qp = ([], Except.error invalidQueryParamsMsg) ↔
      validCodeState qp = false) ∧
    (validCodeState qp = true →
      (completeOidcLogin sdk qp).1 =
        [OidcCall.grant (strOfQ (lookupQ qp "code")) (strOfQ (lookupQ qp "state"))]) := by
  have hsplit :
      validCodeState qp = true ↔
        (jsTruthy (lookupQ qp "code") = true ∧ isStringQ (lookupQ qp "code") = true ∧
         jsTruthy (lookupQ qp "state") = true ∧ isStringQ (lookupQ qp "state") = true) := by
    simp [validCodeState, Bool.and_eq_true, and_assoc]
  constructor
  · constructor
    · intro h
      by_contra hvalid
      rw [Bool.not_eq_false, hsplit] at hvalid
      obtain ⟨h1, h2, h3, h4⟩ := hvalid
      simp [completeOidcLogin, getCodeAndStateFromQueryParams, h1, h2, h3, h4] at h
    · intro h
      rw [← Bool.not_eq_true, hsplit] at h
      simp only [not_and_or, Bool.not_eq_true] at h
      rcases h with h | h | h | h <;>
        simp [completeOidcLogin, getCodeAndStateFromQueryParams, h]
  · intro h
    rw [hsplit] at h
    obtain ⟨h1, h2, h3, h4⟩ := h
    simp [completeOidcLogin, getCodeAndStateFromQueryParams, h1, h2, h3, h4]

/-- C3 witness: the amended theorem applied to concrete valid query
parameters. -/
theorem completeOidcLogin_param_error_iff_witness :
    (completeOidcLogin sdkFail qpGood).1 = [OidcCall.grant "abc" "xyz"] :=
  (completeOidcLogin_param_error_iff sdkFail qpGood).2 (by decide)

/-- C6: `startOidcLogin` builds the authorization URL with the URL
generator applied to exactly `metadata` from the config, `redirectUri`
equal to `window.location.origin`, the given client id, homeserver and
optional identity server, and the nonce `randomString(10)`, and navigates
by assigning that URL to `window.location.href`; nothing else of the
location changes. -/
theorem startOidcLogin_navigates_to_generated_url
    (gen : OidcAuthParams → String) (rand : Nat → String)
    (cfg : OidcClientConfig) (clientId homeserverUrl : String)
    (identityServerUrl : Option String) (loc : BrowserLocation) :
    startOidcLogin gen rand cfg clientId homeserverUrl identityServerUrl loc =
      ({ loc with
          href := gen
            { metadata := cfg.metadata
              redirectUri := loc.origin
              clientId := clientId
              homeserverUrl := homeserverUrl
              identityServerUrl := identityServerUrl
              nonce := rand 10 } },
       { metadata := cfg.metadata
         redirectUri := loc.origin
         clientId := clientId
         homeserverUrl := homeserverUrl
         identityServerUrl := identityServerUrl
         nonce := rand 10 }) := rfl

/-- Refs with both passphrase fields attached, with the given validation
outcomes. -/
def bothFields (b1 b2 : Bool) : DialogRefs :=
  { fieldPassword := some { valid := b1 }, fieldPasswordConfirm := some { valid := b2 } }

/-- C4 counterexample: on a submission where every present field
validates but the component has been unmounted, the export is not
started (`onPassphraseFormSubmit` returns only the two validation
effects, no `startExport`). -/
theorem submit_no_export_when_unmounted :
    (verifyFieldsBeforeSubmit (bothFields true true)).1 = true ∧
    onPassphraseFormSubmit (bothFields true true) true dlg0 =
      [SubmitEffect.validate 0 false false, SubmitEffect.validate 1 false false] := by
  constructor <;> rfl

/-- C4 amended: on every submission both passphrase fields are validated
with `allowEmpty: false` in display order (passphrase first, confirmation
second); if every present field validates and the component has not been
unmounted, the export starts with the value of `passphrase1`; otherwise
the export is not started and, when a field is invalid, the first invalid
field in display order is focused and re-validated. -/
theorem submit_validates_then_exports (b1 b2 u : Bool) (s : DialogState) :
    (b1 = true → b2 = true → u = false →
      onPassphraseFormSubmit (bothFields b1 b2) u s =
        [SubmitEffect.validate 0 false false, SubmitEffect.validate 1 false false,
         SubmitEffect.startExport s.passphrase1]) ∧
    (b1 = false →
      onPassphraseFormSubmit (bothFields b1 b2) u s =
        [SubmitEffect.validate 0 false false, SubmitEffect.validate 1 false false,
         SubmitEffect.focus 0, SubmitEffect.validate 0 false true]) ∧
    (b1 = true → b2 = false →
      onPassphraseFormSubmit (bothFields b1 b2) u s =
        [SubmitEffect.validate 0 false false, SubmitEffect.validate 1 false false,
         SubmitEffect.focus 1, SubmitEffect.validate 1 false true]) ∧
    (u = true →
      onPassphraseFormSubmit (bothFields b1 b2) u s =
        (verifyFieldsBeforeSubmit (bothFields b1 b2)).2) := by
  cases b1 <;> cases b2 <;> cases u <;>
    simp [onPassphraseFormSubmit, verifyFieldsBeforeSubmit, verifyStep, bothFields]

/-- C4 witness: the amended theorem applied to valid fields on a mounted
dialog. -/
theorem submit_validates_then_exports_witness :
    onPassphraseFormSubmit (bothFields true true) false dlg0 =
      [SubmitEffect.validate 0 false false, SubmitEffect.validate 1 false false,
       SubmitEffect.startExport "hunter2"] :=
  (submit_validates_then_exports true true false dlg0).1 rfl rfl rfl

/-- C5: whenever `loadBackupStatus` runs on a mounted panel, the resulting
`backupSigStatus` is exactly the SDK's `isKeyBackupTrusted` applied to
the fetched backup when `getKeyBackupVersion` returns one, and `null`
when it returns none; this holds for every trust oracle, so the panel
computes no trust verdict of its own. -/
theorem loadBackupStatus_trust_from_sdk (o : PanelOracles) (s : PanelState) :
    (∀ info, o.getKeyBackupVersion = Except.ok (some info) →
      (loadBackupStatus o false s).1.backupSigStatus = some (o.isKeyBackupTrusted info) ∧
      (loadBackupStatus o false s).1.backupInfo = some info) ∧
    (o.getKeyBackupVersion = Except.ok none →
      (loadBackupStatus o false s).1.backupSigStatus = none ∧
      (loadBackupStatus o false s).1.backupInfo = none) := by
  constructor
  · intro info h
    simp [loadBackupStatus, loadBackupStatusCont, h]
  · intro h
    simp [loadBackupStatus, loadBackupStatusCont, h]

/-- C5 witness: the theorem applied to concrete oracles with an existing
backup. -/
theorem loadBackupStatus_trust_from_sdk_witness :
    (loadBackupStatus panelOraclesOK false panel0).1.backupSigStatus =
      some { usable := true, trusted_locally := true } ∧
    (loadBackupStatus panelOraclesOK false panel0).1.backupInfo = some backupInfo1 :=
  (loadBackupStatus_trust_from_sdk panelOraclesOK panel0).1 backupInfo1 rfl

/-- C7: `deleteBackup` synchronously only opens the confirmation
`QuestionDialog`; a declined dialog performs no deletion and leaves the
state unchanged; a confirming answer sets loading, calls the SDK's
`deleteKeyBackupVersion` with the current backup's version, and reloads
the status when that call fulfils. -/
theorem deleteBackup_requires_confirmation (dr : Except JsError Unit)
    (s : PanelState) :
    deleteBackup = [DeleteEffect.openQuestionDialog] ∧
    (∀ p, proceedTruthy p = false → deleteBackupOnFinished dr p s = some (s, [])) ∧
    (∀ info, s.backupInfo = some info → dr = Except.ok () →
      deleteBackupOnFinished dr (some true) s =
        some ({ s with loading := true },
          [DeleteEffect.setLoading, DeleteEffect.deleteKeyBackupVersion info.version,
           DeleteEffect.reloadStatus])) := by
  refine ⟨rfl, ?_, ?_⟩
  · intro p hp
    simp [deleteBackupOnFinished, hp]
  · intro info hinfo hdr
    simp [deleteBackupOnFinished, proceedTruthy, hinfo, hdr]

/-- C7 witness: the theorem applied to a confirming answer on a panel
with a current backup. -/
theorem deleteBackup_requires_confirmation_witness :
    deleteBackupOnFinished (Except.ok ()) (some true) panel0 =
      some ({ panel0 with loading := true },
        [DeleteEffect.setLoading, DeleteEffect.deleteKeyBackupVersion (some "7"),
         DeleteEffect.reloadStatus]) :=
  (deleteBackup_requires_confirmation (Except.ok ()) panel0).2.2 backupInfo1 rfl rfl

/-- C8: if any step of the export pipeline rejects, `onFinished(true)` is
not called and, when the dialog is still mounted, the state returns to
phase `Edit` with `errStr` the error's `friendlyText` or the unknown-error
message; `onFinished(true)` is called exactly when the file was saved;
cancelling calls `onFinished(false)` without starting an export. -/
theorem export_failure_and_finish (o : ExportOracles) (pw : String)
    (u : Bool) (s : DialogState) :
    (∀ e, o.exportRoomKeys = Except.error e →
      DialogEffect.onFinished true ∉ (startExport o pw u s).2 ∧
      (u = false → (startExport o pw u s).1.phase = Phase.edit ∧
        (startExport o pw u s).1.errStr = some (friendlyTextOr e))) ∧
    (∀ k e, o.exportRoomKeys = Except.ok k →
      o.encryptMegolmKeyFile (o.jsonStringify k) pw = Except.error e →
      DialogEffect.onFinished true ∉ (startExport o pw u s).2 ∧
      (u = false → (startExport o pw u s).1.phase = Phase.edit ∧
        (startExport o pw u s).1.errStr = some (friendlyTextOr e))) ∧
    (∀ k f e, o.exportRoomKeys = Except.ok k →
      o.encryptMegolmKeyFile (o.jsonStringify k) pw = Except.ok f →
      o.saveAs f "element-keys.txt" = Except.error e →
      DialogEffect.onFinished true ∉ (startExport o pw u s).2 ∧
      (u = false → (startExport o pw u s).1.phase = Phase.edit ∧
        (startExport o pw u s).1.errStr = some (friendlyTextOr e))) ∧
    ((DialogEffect.onFinished true ∈ (startExport o pw u s).2) ↔
      (∃ f, DialogEffect.saveFile "element-keys.txt" f ∈ (startExport o pw u s).2)) ∧
    onCancelClick = [DialogEffect.onFinished false] := by
  refine ⟨?_, ?_, ?_, ?_, rfl⟩
  · intro e he
    simp only [startExport, exportChain, he, catchExport]
    refine ⟨by simp, ?_⟩
    intro hu
    simp [hu]
  · intro k e hk he
    simp only [startExport, exportChain, hk, he, catchExport]
    refine ⟨by simp, ?_⟩
    intro hu
    simp [hu]
  · intro k f e hk hf he
    simp only [startExport, exportChain, hk, hf, he, catchExport]
    refine ⟨by simp, ?_⟩
    intro hu
    simp [hu]
  · cases hk : o.exportRoomKeys with
    | error e => simp [startExport, exportChain, hk]
    | ok k =>
      cases hf : o.encryptMegolmKeyFile (o.jsonStringify k) pw with
      | error e => simp [startExport, exportChain, hk, hf]
      | ok f =>
        cases hs : o.saveAs f "element-keys.txt" with
        | error e => simp [startExport, exportChain, hk, hf, hs]
        | ok _ => simp [startExport, exportChain, hk, hf, hs]

/-- C8 witness: the theorem applied to oracles on which `exportRoomKeys`
rejects, on a mounted dialog. -/
theorem export_failure_and_finish_witness :
    (startExport expOraclesFail "hunter2" false dlg0).1.phase = Phase.edit ∧
    (startExport expOraclesFail "hunter2" false dlg0).1.errStr = some "Boom" :=
  ((export_failure_and_finish expOraclesFail "hunter2" false dlg0).1
    { friendlyText := some "Boom" } rfl).2 rfl

/-- C9: in every render in which the phase is `Exporting`, the two
passphrase fields, the submit input and the cancel button are all
disabled. -/
theorem render_disables_form_while_exporting (s : DialogState)
    (h : s.phase = Phase.exporting) :
    (render s).passphrase1Disabled = true ∧
    (render s).passphrase2Disabled = true ∧
    (render s).submitDisabled = true ∧
    (render s).cancelDisabled = true := by
  simp [render, h]

/-- C9 witness: the theorem applied to a concrete exporting state. -/
theorem render_disables_form_while_exporting_witness :
    (render { dlg0 with phase := Phase.exporting }).passphrase1Disabled = true ∧
    (render { dlg0 with phase := Phase.exporting }).passphrase2Disabled = true ∧
    (render { dlg0 with phase := Phase.exporting }).submitDisabled = true ∧
    (render { dlg0 with phase := Phase.exporting }).cancelDisabled = true :=
  render_disables_form_while_exporting { dlg0 with phase := Phase.exporting } rfl

/-- C10: once the unmounted flag is set, the guarded asynchronous
continuations perform no further state update: the export dialog's
failure handler leaves the state untouched, and the panel's
`loadBackupStatus` continuation, `getUpdatedDiagnostics`, and the error
path of `checkKeyBackupStatus` return without a `setState`. -/
theorem unmounted_guards_block_state_updates (o : PanelOracles)
    (s : PanelState) :
    (∀ e (sd : DialogState), catchExport e true sd = sd) ∧
    ((loadBackupStatusCont o true s).1 = s ∧
      PanelEffect.setState ∉ (loadBackupStatusCont o true s).2) ∧
    getUpdatedDiagnostics o true s = (s, []) ∧
    (∀ e, o.checkKeyBackup = Except.error e →
      checkKeyBackupStatusCont o true s = (s, [PanelEffect.logError])) := by
  refine ⟨?_, ?_, ?_, ?_⟩
  · intro e sd
    simp [catchExport]
  · cases h : o.getKeyBackupVersion with
    | ok v => simp [loadBackupStatusCont, h]
    | error e => simp [loadBackupStatusCont, h]
  · cases h : o.hasCrypto <;> simp [getUpdatedDiagnostics, h]
  · intro e he
    simp [checkKeyBackupStatusCont, he]

/-- C10 witness: the theorem applied to concrete oracles whose
`checkKeyBackup` rejects. -/
theorem unmounted_guards_block_state_updates_witness :
    checkKeyBackupStatusCont panelOraclesOK true panel0 =
      (panel0, [PanelEffect.logError]) :=
  (unmounted_guards_block_state_updates panelOraclesOK panel0).2.2.2
    { friendlyText := none } rfl

end MatrixReactSdk
